import Mathlib

/-!
Verification of the slot-assignment consistency engine and schedule-grid
interpreter of the roster repository.  The definitions below are a shallow
embedding of the JavaScript source files
`src/frontend/frontend/src/components/InputForm.jsx` and
`src/frontend/frontend/src/components/TimetableView.jsx`.

JS `Map` objects are modelled as insertion-ordered association lists whose
`set` overwrites in place, JS `Set` objects as duplicate-free lists built by
ordered insertion, and JS string truthiness as inequality with `""`.
The JS field `section` is rendered as `sectionName` (`section` is reserved
in Lean); all other field names follow the source.
-/

/-- JS `String.prototype.toLowerCase`, restricted to per-character lowering. -/
def jsToLower (s : String) : String := String.mk (s.data.map Char.toLower)

/-- A whitespace character in the sense of JS `String.prototype.trim`. -/
def isJsSpace (c : Char) : Bool :=
  c == ' ' || c == '\t' || c == '\n' || c == '\r'

/-- JS `String.prototype.trim`: strip leading and trailing whitespace. -/
def jsTrim (s : String) : String :=
  String.mk (((s.data.dropWhile isJsSpace).reverse.dropWhile isJsSpace).reverse)

/-- One step of building a JS `Set` from a list: add if not present. -/
def jsSetAdd (s : List String) (x : String) : List String :=
  if s.contains x then s else s ++ [x]

/-- JS `new Set(xs)` (insertion order, duplicates dropped). -/
def jsSet (xs : List String) : List String := xs.foldl jsSetAdd []

/-- JS `map.set(k, v)`: overwrite in place if the key is present, else append. -/
def jsMapSet {α : Type} (m : List (String × α)) (k : String) (v : α) : List (String × α) :=
  if m.any (fun p => p.1 == k) then
    m.map (fun p => if p.1 == k then (k, v) else p)
  else m ++ [(k, v)]

/-- JS `map.get(k)` (as an `Option`). -/
def jsMapGet {α : Type} (m : List (String × α)) (k : String) : Option α :=
  (m.find? (fun p => p.1 == k)).map Prod.snd

/-- JS `map.has(k)`. -/
def jsMapHas {α : Type} (m : List (String × α)) (k : String) : Bool :=
  m.any (fun p => p.1 == k)

/-- JS `array.forEach((x, i) => ...)` index pairing, starting at `n`. -/
def withIdxFrom {α : Type} (n : Nat) : List α → List (Nat × α)
  | [] => []
  | a :: l => (n, a) :: withIdxFrom (n + 1) l

/-- Index pairing starting at 0. -/
def withIdx {α : Type} (l : List α) : List (Nat × α) := withIdxFrom 0 l

/-- A subject row of the input form: `{ name, code, credit, lab }`. -/
structure Subject where
  name : String
  code : String
  credit : Int
  lab : Int
deriving DecidableEq

/-- A raw faculty assignment row: `{ subject, section, teachesTheory, teachesLab }`.
The source field `section` is called `sectionName` here. -/
structure FacultyAssignment where
  subject : String
  sectionName : String
  teachesTheory : Bool
  teachesLab : Bool
deriving DecidableEq

/-- A faculty member: `{ name, abbr, assignments }`. -/
structure FacultyMember where
  name : String
  abbr : String
  assignments : List FacultyAssignment
deriving DecidableEq

/-- A theory-room claim: `{ roomName, sections }`. -/
structure TheoryRoomAssignment where
  roomName : String
  sections : List String
deriving DecidableEq

/-- One `{ subjectName, sections }` entry inside a lab room. -/
structure LabSubjectAssignment where
  subjectName : String
  sections : List String
deriving DecidableEq

/-- A lab-room claim: `{ roomName, assignments }`. -/
structure LabRoomAssignment where
  roomName : String
  assignments : List LabSubjectAssignment
deriving DecidableEq

/-- Owner reference stored in the assignment registry: `{ fi, ai }`. -/
structure SlotOwner where
  fi : Nat
  ai : Nat
deriving DecidableEq

/-- The string key `` `${subject}-${section}-${mode}` `` of `assignedSlots`. -/
def slotKey (subject sectionName mode : String) : String :=
  subject ++ "-" ++ sectionName ++ "-" ++ mode

/-- Body of the inner `forEach` of the `assignedSlots` memo in InputForm.jsx:
record the row as owner of its theory and/or lab slot when subject and
section are both set. -/
def addAssignmentSlots (fi : Nat) (slots : List (String × SlotOwner))
    (ap : Nat × FacultyAssignment) : List (String × SlotOwner) :=
  if ap.2.subject ≠ "" ∧ ap.2.sectionName ≠ "" then
    let s1 := if ap.2.teachesTheory then
        jsMapSet slots (slotKey ap.2.subject ap.2.sectionName "theory") ⟨fi, ap.1⟩
      else slots
    if ap.2.teachesLab then
      jsMapSet s1 (slotKey ap.2.subject ap.2.sectionName "lab") ⟨fi, ap.1⟩
    else s1
  else slots

/-- Body of the outer `forEach` of the `assignedSlots` memo. -/
def addFacultySlots (slots : List (String × SlotOwner))
    (fp : Nat × FacultyMember) : List (String × SlotOwner) :=
  (withIdx fp.2.assignments).foldl (addAssignmentSlots fp.1) slots

/-- The `assignedSlots` registry: `Map<SlotKey, {fi, ai}>` built from the
faculty list (InputForm.jsx lines 345-360). -/
def assignedSlots (faculty : List FacultyMember) : List (String × SlotOwner) :=
  (withIdx faculty).foldl addFacultySlots []

/-- Source function `isSlotTakenByOther` (InputForm.jsx lines 362-368). -/
def isSlotTakenByOther (faculty : List FacultyMember)
    (subject sectionName mode : String)
    (currentFacultyIdx currentAssignmentIdx : Nat) : Bool :=
  if subject = "" ∨ sectionName = "" then false
  else
    match jsMapGet (assignedSlots faculty) (slotKey subject sectionName mode) with
    | none => false
    | some owner =>
        (owner.fi != currentFacultyIdx) || (owner.ai != currentAssignmentIdx)

/-- The `assignedLabSlotsMap` memo (InputForm.jsx lines 370-382):
`Map<subjectName-section, roomIndex>` over the lab-room claims. -/
def assignedLabSlotsMap (lras : List LabRoomAssignment) : List (String × Nat) :=
  (withIdx lras).foldl (fun m rp =>
    rp.2.assignments.foldl (fun m assign =>
      if assign.subjectName ≠ "" then
        assign.sections.foldl (fun m sec =>
          jsMapSet m (assign.subjectName ++ "-" ++ sec) rp.1) m
      else m) m) []

/-- Source function `isLabSlotTakenByOther` (InputForm.jsx lines 384-390). -/
def isLabSlotTakenByOther (lras : List LabRoomAssignment)
    (subjectName sectionName : String) (currentRoomIndex : Nat) : Bool :=
  if subjectName = "" ∨ sectionName = "" then false
  else
    match jsMapGet (assignedLabSlotsMap lras) (subjectName ++ "-" ++ sectionName) with
    | none => false
    | some owner => owner != currentRoomIndex

/-- The `uniqueSubjects` set of a faculty member (InputForm.jsx line 706). -/
def uniqueSubjects (f : FacultyMember) : List String :=
  jsSet ((f.assignments.map (·.subject)).filter (fun s => s != ""))

/-- Section names `A..` derived from `sectionsCount` (InputForm.jsx line 83). -/
def sectionNamesOf (sectionsCount : Int) : List String :=
  (List.range sectionsCount.toNat).map (fun i => String.mk [Char.ofNat ('A'.toNat + i)])

/-- Source value `requiredTheorySections` (InputForm.jsx line 103): the sections filtered by
"some subject has credit > 0", deduplicated by `new Set`. -/
def requiredTheorySections (sectionNames : List String) (subjects : List Subject) : List String :=
  jsSet (sectionNames.filter (fun _ => subjects.any (fun s => decide (s.credit > 0))))

/-- Source value `assignedTheorySections` (InputForm.jsx line 104): the truthy sections
claimed by theory-room assignments, deduplicated. -/
def assignedTheorySections (tras : List TheoryRoomAssignment) : List String :=
  jsSet ((tras.flatMap (·.sections)).filter (fun sec => sec != ""))

/-- The theory-room coverage gate at submit (InputForm.jsx line 105): alert
fires iff the required set is non-empty and strictly LARGER in cardinality
than the claimed set. -/
def theoryCoverageAlert (sectionNames : List String) (subjects : List Subject)
    (tras : List TheoryRoomAssignment) : Bool :=
  decide (0 < (requiredTheorySections sectionNames subjects).length) &&
  decide ((assignedTheorySections tras).length < (requiredTheorySections sectionNames subjects).length)

/-- Source value `requiredLabSlots` (InputForm.jsx lines 109-114): one `` `${name}-${sec}` ``
entry per lab subject per section. -/
def requiredLabSlotsOf (subjects : List Subject) (sectionNames : List String) : List String :=
  jsSet (subjects.flatMap (fun s =>
    if s.lab > 0 then sectionNames.map (fun sec => s.name ++ "-" ++ sec) else []))

/-- Source value `assignedLabSlots` (InputForm.jsx lines 115-122). -/
def assignedLabSlotsOf (lras : List LabRoomAssignment) : List String :=
  jsSet (lras.flatMap (fun room =>
    room.assignments.flatMap (fun assign =>
      assign.sections.map (fun sec => assign.subjectName ++ "-" ++ sec))))

/-- The lab-room coverage gate at submit (InputForm.jsx line 123): again a
cardinality comparison. -/
def labCoverageAlert (subjects : List Subject) (sectionNames : List String)
    (lras : List LabRoomAssignment) : Bool :=
  decide (0 < (requiredLabSlotsOf subjects sectionNames).length) &&
  decide ((assignedLabSlotsOf lras).length < (requiredLabSlotsOf subjects sectionNames).length)

/-- The distinct validation failures of `handleSubmit`, in source order. -/
inductive SubmitError where
  | sectionsRange
  | subjectsCountRange
  | theoryCoverage
  | labCoverage
  | theoryRoomUnnamed
  | theoryRoomNoSection (roomName : String)
  | labRoomUnnamed
  | duplicateSubjectName (name : String)
  | duplicateSubjectCode (code : String)
  | duplicateTheoryRoom (name : String)
  | duplicateLabRoom (name : String)
  | duplicateRoomAcross (name : String)
  | duplicateFacultyName (name : String)
  | duplicateFacultyAbbr (abbr : String)
  | subjectUnnamed
  | subjectCodeLength (name : String)
  | creditRange
  | labRange
  | subjectNeedsSomeMode (name : String)
  | facultyUnnamed
  | facultyNoAbbr
  | incompleteAssignment (facultyName : String)
  | noTeachingMode (facultyName : String)
  | assignmentIssues (gaps : List (Bool × String × String))
deriving DecidableEq

/-- The per-room loop over theory-room assignments (InputForm.jsx lines
127-134): every room must be named and claim at least one section. -/
def checkTheoryRooms : List TheoryRoomAssignment → Option SubmitError
  | [] => none
  | tra :: rest =>
    if (jsTrim tra.roomName) = "" then some .theoryRoomUnnamed
    else if (tra.sections.filter (fun sec => sec != "")).length = 0 then
      some (.theoryRoomNoSection tra.roomName)
    else checkTheoryRooms rest

/-- The interleaved two-set duplicate scan used for subject name/code pairs
(InputForm.jsx lines 147-162) and faculty name/abbr pairs (lines 192-207):
for each item, check then record the first component, then check and record
the second, skipping falsy strings. -/
def scanDups2 (e1 e2 : String → SubmitError) :
    List (String × String) → List String → List String → Option SubmitError
  | [], _, _ => none
  | (x, y) :: rest, seen1, seen2 =>
    if x ≠ "" ∧ seen1.contains (jsToLower x) then some (e1 x)
    else
      let seen1a := if x ≠ "" then seen1 ++ [jsToLower x] else seen1
      if y ≠ "" ∧ seen2.contains (jsToLower y) then some (e2 y)
      else
        scanDups2 e1 e2 rest seen1a (if y ≠ "" then seen2 ++ [jsToLower y] else seen2)

/-- The single-set duplicate scan used for theory-room names (InputForm.jsx
lines 164-172) and lab-room names (lines 174-182). -/
def scanDups1 (e : String → SubmitError) :
    List String → List String → Option SubmitError
  | [], _ => none
  | r :: rest, seen =>
    if r ≠ "" ∧ seen.contains (jsToLower r) then some (e r)
    else scanDups1 e rest (if r ≠ "" then seen ++ [jsToLower r] else seen)

/-- The cross-kind duplicate check (InputForm.jsx lines 184-189): the first
truthy lab-room name whose lowercase form was seen among theory rooms. -/
def checkCrossDup (labNames theoryLower : List String) : Option SubmitError :=
  match labNames.find? (fun r => (r != "") && theoryLower.contains (jsToLower r)) with
  | some r => some (.duplicateRoomAcross r)
  | none => none

/-- The per-subject field checks (InputForm.jsx lines 209-215). -/
def checkSubjects : List Subject → Option SubmitError
  | [] => none
  | s :: rest =>
    if jsTrim s.name = "" then some .subjectUnnamed
    else if (jsTrim s.code).length < 1 ∨ 5 < (jsTrim s.code).length then
      some (.subjectCodeLength s.name)
    else if s.credit < 0 ∨ 3 < s.credit then some .creditRange
    else if s.lab < 0 ∨ 3 < s.lab then some .labRange
    else if s.credit = 0 ∧ s.lab = 0 then some (.subjectNeedsSomeMode s.name)
    else checkSubjects rest

/-- The per-assignment completeness loop of one faculty member
(InputForm.jsx lines 224-231). -/
def checkAssignments (facultyName : String) : List FacultyAssignment → Option SubmitError
  | [] => none
  | a :: rest =>
    if a.subject = "" ∨ a.sectionName = "" then some (.incompleteAssignment facultyName)
    else if a.teachesTheory = false ∧ a.teachesLab = false then
      some (.noTeachingMode facultyName)
    else checkAssignments facultyName rest

/-- The per-faculty loop (InputForm.jsx lines 217-232). -/
def checkFaculty : List FacultyMember → Option SubmitError
  | [] => none
  | f :: rest =>
    if jsTrim f.name = "" then some .facultyUnnamed
    else if jsTrim f.abbr = "" then some .facultyNoAbbr
    else
      match checkAssignments f.name f.assignments with
      | some e => some e
      | none => checkFaculty rest

/-- The accumulated faculty-coverage gaps (InputForm.jsx lines 235-258); each
entry is `(isLab, subjectName, sectionName)`. -/
def coverageGaps (subjects : List Subject) (sectionNames : List String)
    (faculty : List FacultyMember) : List (Bool × String × String) :=
  subjects.flatMap (fun subject =>
    if subject.name = "" then []
    else sectionNames.flatMap (fun secName =>
      (if decide (subject.credit > 0) &&
          !(faculty.any (fun f => f.assignments.any (fun a =>
            a.subject == subject.name && a.sectionName == secName && a.teachesTheory))) then
        [(false, subject.name, secName)]
      else []) ++
      (if decide (subject.lab > 0) &&
          !(faculty.any (fun f => f.assignments.any (fun a =>
            a.subject == subject.name && a.sectionName == secName && a.teachesLab))) then
        [(true, subject.name, secName)]
      else [])))

/-- The whole editor state reaching `handleSubmit`. -/
structure Config where
  sectionsCount : Int
  theoryRoomAssignments : List TheoryRoomAssignment
  labRoomAssignments : List LabRoomAssignment
  subjects : List Subject
  faculty : List FacultyMember
  periodsPerDay : Int
  breakPeriod : Int
deriving DecidableEq

/-- The full validation sequence of `handleSubmit` (InputForm.jsx lines
98-261), returning the first failure, in the source's order: section/subject
counts, both coverage cardinality gates, the theory-room loop, the
empty-name re-checks, subject name/code uniqueness, theory-room uniqueness,
lab-room uniqueness, the cross-kind room check, faculty name/abbr
uniqueness, per-subject field checks, per-faculty assignment checks, and
finally the accumulated faculty-coverage gaps. -/
def handleSubmitValidate (c : Config) : Option SubmitError :=
  if c.sectionsCount < 1 ∨ 6 < c.sectionsCount then some .sectionsRange
  else if c.subjects.length < 4 ∨ 6 < c.subjects.length then some .subjectsCountRange
  else if theoryCoverageAlert (sectionNamesOf c.sectionsCount) c.subjects c.theoryRoomAssignments then
    some .theoryCoverage
  else if labCoverageAlert c.subjects (sectionNamesOf c.sectionsCount) c.labRoomAssignments then
    some .labCoverage
  else match checkTheoryRooms c.theoryRoomAssignments with
  | some e => some e
  | none =>
    if (c.theoryRoomAssignments.map (·.roomName)).any (fun r => jsTrim r == "") then
      some .theoryRoomUnnamed
    else if (c.labRoomAssignments.map (·.roomName)).any (fun r => jsTrim r == "") then
      some .labRoomUnnamed
    else match scanDups2 .duplicateSubjectName .duplicateSubjectCode
        (c.subjects.map (fun s => (s.name, s.code))) [] [] with
    | some e => some e
    | none =>
      match scanDups1 .duplicateTheoryRoom (c.theoryRoomAssignments.map (·.roomName)) [] with
      | some e => some e
      | none =>
        match scanDups1 .duplicateLabRoom (c.labRoomAssignments.map (·.roomName)) [] with
        | some e => some e
        | none =>
          match checkCrossDup (c.labRoomAssignments.map (·.roomName))
              (((c.theoryRoomAssignments.map (·.roomName)).filter (fun r => r != "")).map jsToLower) with
          | some e => some e
          | none =>
            match scanDups2 .duplicateFacultyName .duplicateFacultyAbbr
                (c.faculty.map (fun f => (f.name, f.abbr))) [] [] with
            | some e => some e
            | none =>
              match checkSubjects c.subjects with
              | some e => some e
              | none =>
                match checkFaculty c.faculty with
                | some e => some e
                | none =>
                  let gaps := coverageGaps c.subjects (sectionNamesOf c.sectionsCount) c.faculty
                  if gaps.isEmpty then none else some (.assignmentIssues gaps)

/-- One row of the normalized payload room assignments:
`{ subjectName, sectionName, roomName }`. -/
structure RoomAssignmentRow where
  subjectName : String
  sectionName : String
  roomName : String
deriving DecidableEq

/-- Innermost `forEach` of `finalTheoryRoomAssignments` (InputForm.jsx lines
272-280): push one row per subject with `credit > 0`. -/
def crossSubjects (acc : List RoomAssignmentRow) (secName roomName : String)
    (subjects : List Subject) : List RoomAssignmentRow :=
  subjects.foldl (fun acc s =>
    if s.credit > 0 then acc ++ [⟨s.name, secName, roomName⟩] else acc) acc

/-- Middle `forEach` over a theory room's claimed sections (InputForm.jsx
lines 270-282), skipping falsy section names. -/
def crossSections (acc : List RoomAssignmentRow) (tra : TheoryRoomAssignment)
    (subjects : List Subject) : List RoomAssignmentRow :=
  tra.sections.foldl (fun acc secName =>
    if secName ≠ "" then crossSubjects acc secName tra.roomName subjects else acc) acc

/-- Source value `finalTheoryRoomAssignments` (InputForm.jsx lines 267-284). -/
def finalTheoryRoomAssignments (tras : List TheoryRoomAssignment)
    (subjects : List Subject) : List RoomAssignmentRow :=
  tras.foldl (fun acc tra =>
    if tra.roomName ≠ "" then crossSections acc tra subjects else acc) []

/-- The `(room, section)` theory-room claims, in the spec's sense (§4.4):
every named room paired with each of its non-empty claimed sections. -/
def theoryRoomClaims (tras : List TheoryRoomAssignment) : List (String × String) :=
  tras.flatMap (fun tra =>
    if tra.roomName ≠ "" then
      (tra.sections.filter (fun sec => sec != "")).map (fun sec => (tra.roomName, sec))
    else [])

/-- The payload rows as the spec words them: the cross product of each
`(room, section)` claim with every subject having `credit > 0`, one row per
combination.  Stated independently of the source builder for comparison. -/
def theoryRoomAssignmentsSpec (tras : List TheoryRoomAssignment)
    (subjects : List Subject) : List RoomAssignmentRow :=
  (theoryRoomClaims tras).flatMap (fun rc =>
    (subjects.filter (fun s => decide (s.credit > 0))).map
      (fun s => ⟨s.name, rc.2, rc.1⟩))

/-- One grouped entry of the faculty payload:
`{ subjectName, teachesTheory, teachesLab, sections }`. -/
structure GroupedAssignment where
  subjectName : String
  teachesTheory : Bool
  teachesLab : Bool
  sections : List String
deriving DecidableEq

/-- The grouping key `` `${a.subject}-${a.teachesTheory}-${a.teachesLab}` ``
(InputForm.jsx line 313), with JS boolean stringification. -/
def groupKey (a : FacultyAssignment) : String :=
  a.subject ++ "-" ++ (if a.teachesTheory then "true" else "false")
    ++ "-" ++ (if a.teachesLab then "true" else "false")

/-- One step of the `assignmentsByGroup` accumulation (InputForm.jsx lines
309-323): skip defective rows, create the group on first sight, then push
the row's section onto its group. -/
def addToGroups (groups : List (String × GroupedAssignment))
    (a : FacultyAssignment) : List (String × GroupedAssignment) :=
  if a.subject = "" ∨ a.sectionName = "" ∨ (a.teachesTheory = false ∧ a.teachesLab = false) then
    groups
  else
    let key := groupKey a
    let groups1 := if groups.any (fun p => p.1 == key) then groups
      else groups ++ [(key, ⟨a.subject, a.teachesTheory, a.teachesLab, []⟩)]
    groups1.map (fun p =>
      if p.1 == key then (p.1, { p.2 with sections := p.2.sections ++ [a.sectionName] })
      else p)

/-- Source expression `Array.from(assignmentsByGroup.values())` for one faculty member. -/
def groupAssignments (assignments : List FacultyAssignment) : List GroupedAssignment :=
  (assignments.foldl addToGroups []).map Prod.snd

/-- One faculty entry of the payload. -/
structure PayloadFaculty where
  name : String
  abbr : String
  assignments : List GroupedAssignment
deriving DecidableEq

/-- Source value `payload.faculty` (InputForm.jsx lines 305-327): group each member's
rows, then drop members with a falsy name or no resulting groups. -/
def buildFacultyPayload (faculty : List FacultyMember) : List PayloadFaculty :=
  (faculty.map (fun f =>
    ({ name := f.name, abbr := f.abbr, assignments := groupAssignments f.assignments } : PayloadFaculty))).filter
    (fun f => (f.name != "") && decide (0 < f.assignments.length))

/-- An occupied period cell of the response grid.  The source cell's
`break` flag is called `isBreak` (`break` is reserved in Lean); an absent
`note` is the empty string; `faculty.abbr` is kept as `facultyAbbr`. -/
structure Cell where
  subject : String
  room : String
  facultyAbbr : String
  isLab : Bool
  isBreak : Bool
  note : String
deriving DecidableEq

/-- The per-period render step of TimetableView.jsx (lines 110-120): a cell
whose `note` is `"lab cont."` renders as nothing (absorbed into the
preceding cell); otherwise the cell renders with `colSpan` 2 exactly when
its note is `"lab start"`. -/
def renderPeriod (p : Option Cell) : Option (Nat × Option Cell) :=
  if (p.map Cell.note).getD "" = "lab cont." then none
  else some (if (p.map Cell.note).getD "" = "lab start" then 2 else 1, p)

/-- One rendered day row: `day.periods.map(...)`. -/
def renderDay (periods : List (Option Cell)) : List (Option (Nat × Option Cell)) :=
  periods.map renderPeriod

/-- One day of a section's schedule. -/
structure DaySchedule where
  day : String
  periods : List (Option Cell)
deriving DecidableEq

/-- One section's schedule. -/
structure SectionSchedule where
  days : List DaySchedule
deriving DecidableEq

/-- The generation-service response consumed by TimetableView. -/
structure ScheduleResponse where
  sections : List String
  subjects : List Subject
  facultyNames : List String
  breakPeriod : Int
  schedules : List (String × SectionSchedule)
deriving DecidableEq

/-- The non-null cells visited by the dashboard loops of TimetableView.jsx
(lines 19-41): for each listed section with a schedule, every non-null
period cell of every day, in order. -/
def allCountedCells (resp : ScheduleResponse) : List Cell :=
  resp.sections.flatMap (fun name =>
    match jsMapGet resp.schedules name with
    | some ss => ss.days.flatMap (fun d => d.periods.filterMap id)
    | none => [])

/-- Source value `totalTheoryClasses` (TimetableView.jsx lines 32-33): occupied non-break
cells with `isLab` false. -/
def totalTheoryClasses (resp : ScheduleResponse) : Nat :=
  (allCountedCells resp).countP (fun p => !p.isBreak && !p.isLab)

/-- Source value `totalLabClasses` (TimetableView.jsx lines 34-36): occupied non-break
lab cells whose note is exactly `"lab start"`, so one per block. -/
def totalLabClasses (resp : ScheduleResponse) : Nat :=
  (allCountedCells resp).countP (fun p => !p.isBreak && p.isLab && (p.note == "lab start"))

/-- The `usedTheoryRooms` / `usedLabRooms` sets (TimetableView.jsx lines
24-31): distinct truthy room names of non-break cells, split by `isLab`. -/
def usedRoomsBy (resp : ScheduleResponse) (lab : Bool) : List String :=
  (allCountedCells resp).foldl (fun s p =>
    if !p.isBreak && (p.room != "") && (p.isLab == lab) then jsSetAdd s p.room else s) []

/-- The summary statistics computed by TimetableView.jsx for the dashboard. -/
structure Dashboard where
  totalTheoryClasses : Nat
  totalLabClasses : Nat
  totalSubjects : Nat
  totalFaculty : Nat
  totalTheoryRoomsUsed : Nat
  totalLabRoomsUsed : Nat
deriving DecidableEq

/-- All dashboard numbers of TimetableView.jsx (lines 10-44). -/
def dashboard (resp : ScheduleResponse) : Dashboard :=
  { totalTheoryClasses := totalTheoryClasses resp
    totalLabClasses := totalLabClasses resp
    totalSubjects := resp.subjects.length
    totalFaculty := resp.facultyNames.length
    totalTheoryRoomsUsed := (usedRoomsBy resp false).length
    totalLabRoomsUsed := (usedRoomsBy resp true).length }

/-- Modelled from the spec: the per-subject scheduled-theory count of §4.5
("count occupied non-break cells with isLab=false as scheduled-theory" for
each subject).  No such per-subject computation exists in
TimetableView.jsx; this definition states what the spec describes. -/
def perSubjectScheduledTheory (resp : ScheduleResponse) (subjectName : String) : Nat :=
  (allCountedCells resp).countP (fun p =>
    !p.isBreak && !p.isLab && (p.subject == subjectName))

/-- Rename the subject of one cell, leaving every other field alone. -/
def mapCellSubject (f : String → String) (c : Cell) : Cell :=
  { c with subject := f c.subject }

/-- Rename the subject of every grid cell of a response. -/
def mapRespSubjects (f : String → String) (resp : ScheduleResponse) : ScheduleResponse :=
  { resp with
    schedules := resp.schedules.map (fun p =>
      (p.1, ⟨p.2.days.map (fun d =>
        ⟨d.day, d.periods.map (Option.map (mapCellSubject f))⟩)⟩)) }

/-- The body the generation call resolves with, as the client sees it. -/
inductive JsData where
  | jnull
  | jundefined
  | jdata (payload : String)
deriving DecidableEq

/-- JS truthiness of a response body. -/
def truthy : JsData → Bool
  | .jnull => false
  | .jundefined => false
  | .jdata _ => true

/-- The client-visible state `persistAndNavigate` acts on: the
`timetableData` localStorage slot and the current route. -/
structure ClientState where
  timetableData : Option JsData
  route : String
deriving DecidableEq

/-- Source function `persistAndNavigate` (InputForm.jsx lines 51-58): store the data and
navigate when it is truthy, otherwise remove the cached timetable and stay. -/
def persistAndNavigate (data : JsData) (st : ClientState) : ClientState :=
  if truthy data then { st with timetableData := some data, route := "/timetable" }
  else { st with timetableData := none }

/-- A submit-time state with a stale theory-room claim: one section `A` is
required, but the single room claims only the stale section `B` (left over
from a restored draft with two sections). -/
def c1Config : Config :=
  { sectionsCount := 1
    theoryRoomAssignments := [⟨"TR1", ["B"]⟩]
    labRoomAssignments := []
    subjects := [⟨"Alg", "AL", 1, 0⟩, ⟨"Geo", "GE", 1, 0⟩, ⟨"Num", "NU", 1, 0⟩, ⟨"Sta", "ST", 1, 0⟩]
    faculty := [⟨"G1", "g1", [⟨"Alg", "A", true, false⟩, ⟨"Geo", "A", true, false⟩]⟩,
                ⟨"G2", "g2", [⟨"Num", "A", true, false⟩, ⟨"Sta", "A", true, false⟩]⟩]
    periodsPerDay := 8
    breakPeriod := 4 }


/-- C1: the room-coverage validation is a cardinality compare, not set
containment.  At `c1Config` the required theory section `A` has no
theory-room claim, yet the coverage gate does not fire (the stray claim for
the stale section `B` makes the claimed set as large as the required set)
and the whole submit validation passes. -/
theorem C1_coverage_check_passes_with_uncovered_section :
    handleSubmitValidate c1Config = none ∧
    theoryCoverageAlert (sectionNamesOf c1Config.sectionsCount) c1Config.subjects
      c1Config.theoryRoomAssignments = false ∧
    "A" ∈ requiredTheorySections (sectionNamesOf c1Config.sectionsCount) c1Config.subjects ∧
    "A" ∉ assignedTheorySections c1Config.theoryRoomAssignments := by
  decide

/-- Two faculty members whose single rows claim the same `(S, A, theory)`
slot; the second row is later in iteration order. -/
def c2Faculty : List FacultyMember :=
  [⟨"F1", "f1", [⟨"S", "A", true, false⟩]⟩,
   ⟨"F2", "f2", [⟨"S", "A", true, false⟩]⟩]

/-- C2, counterexample: when two rows claim the same SlotKey, the registry
does NOT report a conflict on the later row `(1, 0)` — `Map.set` makes the
later row the recorded owner, so the conflict is reported on the earlier
row `(0, 0)` instead. -/
theorem C2_conflict_not_reported_on_later_row :
    isSlotTakenByOther c2Faculty "S" "A" "theory" 1 0 = false ∧
    isSlotTakenByOther c2Faculty "S" "A" "theory" 0 0 = true := by
  decide

/-- The keys of `jsMapSet m k v`: unchanged when `k` was present, extended
by `k` otherwise. -/
theorem jsMapSet_keys {α : Type} (m : List (String × α)) (k : String) (v : α) :
    (jsMapSet m k v).map Prod.fst =
      if m.any (fun p => p.1 == k) then m.map Prod.fst else m.map Prod.fst ++ [k] := by
  unfold jsMapSet
  split
  · simp only [List.map_map]
    apply List.map_congr_left
    intro p _
    by_cases hp : p.1 = k
    · simp [hp]
    · simp [hp]
  · simp

/-- Insertion with `jsMapSet` keeps the key list duplicate-free. -/
theorem jsMapSet_keys_nodup {α : Type} {m : List (String × α)} (k : String) (v : α)
    (h : (m.map Prod.fst).Nodup) : ((jsMapSet m k v).map Prod.fst).Nodup := by
  rw [jsMapSet_keys]
  split
  · exact h
  · rename_i hany
    refine List.Nodup.append h (List.nodup_singleton k) ?_
    intro a ha hb
    rw [List.mem_singleton] at hb
    subst hb
    rw [List.mem_map] at ha
    obtain ⟨p, hp, hpk⟩ := ha
    exact hany (by rw [List.any_eq_true]; exact ⟨p, hp, beq_iff_eq.mpr hpk⟩)

/-- A property preserved by each step of a fold is preserved by the fold. -/
theorem foldl_preserve {α β : Type} {P : β → Prop} {f : β → α → β}
    (hf : ∀ b a, P b → P (f b a)) :
    ∀ (l : List α) (b : β), P b → P (l.foldl f b) := by
  intro l
  induction l with
  | nil => intro b hb; exact hb
  | cons a l ih => intro b hb; exact ih _ (hf b a hb)

/-- Each assignment-registry insertion keeps the keys duplicate-free. -/
theorem addAssignmentSlots_nodup (fi : Nat) (slots : List (String × SlotOwner))
    (ap : Nat × FacultyAssignment) (h : (slots.map Prod.fst).Nodup) :
    ((addAssignmentSlots fi slots ap).map Prod.fst).Nodup := by
  unfold addAssignmentSlots
  split
  · cases hT : ap.2.teachesTheory <;> cases hL : ap.2.teachesLab <;> simp only [hT, hL] <;>
      simp only [if_true, if_false, Bool.false_eq_true, Bool.true_eq_false, ite_true, ite_false] <;>
      first
        | exact h
        | exact jsMapSet_keys_nodup _ _ h
        | exact jsMapSet_keys_nodup _ _ (jsMapSet_keys_nodup _ _ h)
  · exact h

/-- One faculty member's rows keep the registry keys duplicate-free. -/
theorem addFacultySlots_nodup (slots : List (String × SlotOwner))
    (fp : Nat × FacultyMember) (h : (slots.map Prod.fst).Nodup) :
    ((addFacultySlots slots fp).map Prod.fst).Nodup :=
  foldl_preserve (fun b a hb => addAssignmentSlots_nodup fp.1 b a hb) _ slots h

/-- C2, amended: the registry has at most one recorded owner per SlotKey,
and when two rows claim the same `(subject, section, theory)` SlotKey the
recorded owner is the LAST row in iteration order, so `isSlotTakenByOther`
reports the conflict on the earlier row `(0, 0)` and reports none on the
later row `(1, 0)`. -/
theorem C2_owner_is_last_row :
    (∀ faculty : List FacultyMember, ((assignedSlots faculty).map Prod.fst).Nodup) ∧
    (∀ (n1 b1 n2 b2 s sec : String), s ≠ "" → sec ≠ "" →
      isSlotTakenByOther [⟨n1, b1, [⟨s, sec, true, false⟩]⟩, ⟨n2, b2, [⟨s, sec, true, false⟩]⟩]
        s sec "theory" 0 0 = true ∧
      isSlotTakenByOther [⟨n1, b1, [⟨s, sec, true, false⟩]⟩, ⟨n2, b2, [⟨s, sec, true, false⟩]⟩]
        s sec "theory" 1 0 = false) := by
  constructor
  · intro faculty
    exact foldl_preserve (fun b a hb => addFacultySlots_nodup b a hb) _ [] (by simp)
  · intro n1 b1 n2 b2 s sec hs hsec
    have hslots :
        assignedSlots [⟨n1, b1, [⟨s, sec, true, false⟩]⟩, ⟨n2, b2, [⟨s, sec, true, false⟩]⟩]
          = [(slotKey s sec "theory", ⟨1, 0⟩)] := by
      simp [assignedSlots, withIdx, withIdxFrom, addFacultySlots, addAssignmentSlots,
        jsMapSet, hs, hsec]
    constructor <;>
      simp [isSlotTakenByOther, hslots, jsMapGet, hs, hsec]

/-- C2, witness: the amended statement at the concrete two-row list. -/
theorem C2_owner_is_last_row_witness :
    isSlotTakenByOther c2Faculty "S" "A" "theory" 0 0 = true ∧
    isSlotTakenByOther c2Faculty "S" "A" "theory" 1 0 = false := by
  have h := C2_owner_is_last_row.2 "F1" "f1" "F2" "f2" "S" "A" (by decide) (by decide)
  exact ⟨h.1, h.2⟩

/-- The opening cell of a two-period lab block. -/
def labStartCell : Cell := ⟨"PhysLab", "L1", "AB", true, false, "lab start"⟩

/-- A continuation cell carrying the note spelling `"lab cont"` (as the spec
writes it, without a trailing period). -/
def labContCell : Cell := ⟨"PhysLab", "L1", "AB", true, false, "lab cont"⟩

/-- A continuation cell carrying the note spelling `"lab cont."` (the string
TimetableView.jsx actually matches). -/
def labContDotCell : Cell := ⟨"PhysLab", "L1", "AB", true, false, "lab cont."⟩

/-- A one-section, one-day response whose only occupied cells are the given
two periods. -/
def labBlockResp (c2 : Cell) : ScheduleResponse :=
  ⟨["A"], [⟨"PhysLab", "PHL", 0, 1⟩], ["AB"], 4,
    [("A", ⟨[⟨"Mon", [some labStartCell, some c2]⟩]⟩)]⟩

/-- C3, counterexample: a continuation cell whose note is exactly
`"lab cont"` is NOT suppressed — the renderer only suppresses the spelling
`"lab cont."`, so both cells of the block are rendered (two rendered cells,
the first still spanning two columns). -/
theorem C3_lab_cont_cell_not_suppressed :
    renderDay [some labStartCell, some labContCell]
      = [some (2, some labStartCell), some (1, some labContCell)] ∧
    (renderDay [some labStartCell, some labContCell]).countP Option.isSome = 2 := by
  decide

/-- C3, amended: the suppressed note spelling is `"lab cont."`; a cell with
that note is absorbed (rendered as nothing) while a `"lab start"` cell spans
two columns, and under either spelling of the continuation note the block
contributes exactly 1 to the dashboard lab-class total. -/
theorem C3_lab_cont_dot_merge :
    (∀ (s r f : String) (lab brk : Bool),
      renderPeriod (some ⟨s, r, f, lab, brk, "lab cont."⟩) = none) ∧
    (∀ (s r f : String) (lab brk : Bool),
      renderPeriod (some ⟨s, r, f, lab, brk, "lab start"⟩)
        = some (2, some ⟨s, r, f, lab, brk, "lab start"⟩)) ∧
    renderDay [some labStartCell, some labContDotCell]
      = [some (2, some labStartCell), none] ∧
    totalLabClasses (labBlockResp labContDotCell) = 1 ∧
    totalLabClasses (labBlockResp labContCell) = 1 := by
  refine ⟨fun s r f lab brk => ?_, fun s r f lab brk => ?_, by decide, by decide, by decide⟩
  · simp [renderPeriod]
  · simp [renderPeriod]

/-- C4: the payload builder groups one member's rows by
`(subject, teachesTheory, teachesLab)`: two rows differing only in section
collapse into one entry with both sections in encounter order; rows missing
subject or section or with both flags false leave the groups untouched; and
a faculty member with zero resulting groups is dropped from the payload. -/
theorem C4_grouping_law :
    (∀ (s s1 s2 : String) (th lb : Bool), s ≠ "" → s1 ≠ "" → s2 ≠ "" →
      ¬(th = false ∧ lb = false) →
      groupAssignments [⟨s, s1, th, lb⟩, ⟨s, s2, th, lb⟩] = [⟨s, th, lb, [s1, s2]⟩]) ∧
    (∀ (groups : List (String × GroupedAssignment)) (a : FacultyAssignment),
      a.subject = "" ∨ a.sectionName = "" ∨ (a.teachesTheory = false ∧ a.teachesLab = false) →
      addToGroups groups a = groups) ∧
    (∀ (n b : String) (asgn : List FacultyAssignment),
      groupAssignments asgn = [] → buildFacultyPayload [⟨n, b, asgn⟩] = []) := by
  refine ⟨?_, ?_, ?_⟩
  · intro s s1 s2 th lb hs hs1 hs2 hmode
    simp [groupAssignments, addToGroups, groupKey, hs, hs1, hs2, hmode]
  · intro groups a h
    unfold addToGroups
    rw [if_pos h]
  · intro n b asgn h
    simp [buildFacultyPayload, h]

/-- C4, witness: the grouping law at concrete rows. -/
theorem C4_grouping_law_witness :
    groupAssignments [⟨"M", "A", true, false⟩, ⟨"M", "B", true, false⟩]
      = [⟨"M", true, false, ["A", "B"]⟩] ∧
    addToGroups [] ⟨"", "A", true, false⟩ = [] ∧
    buildFacultyPayload [⟨"F", "f", []⟩] = [] :=
  ⟨C4_grouping_law.1 "M" "A" "B" true false (by decide) (by decide) (by decide) (by decide),
   C4_grouping_law.2.1 [] ⟨"", "A", true, false⟩ (Or.inl rfl),
   C4_grouping_law.2.2 "F" "f" [] rfl⟩

/-- A fold whose every step appends a segment equals the start followed by
the flattened segments. -/
theorem foldl_extend {α β : Type} (step : List β → α → List β) (g : α → List β)
    (hstep : ∀ acc x, step acc x = acc ++ g x) :
    ∀ (l : List α) (acc : List β), l.foldl step acc = acc ++ l.flatMap g := by
  intro l
  induction l with
  | nil => intro acc; simp
  | cons x rest ih => intro acc; simp [List.foldl_cons, hstep, ih]

/-- Flattening guarded singletons is mapping over the filtered list. -/
theorem flatMap_if_singleton {α β : Type} (p : α → Prop) [DecidablePred p]
    (g : α → β) (l : List α) :
    l.flatMap (fun x => if p x then [g x] else [])
      = (l.filter (fun x => decide (p x))).map g := by
  induction l with
  | nil => rfl
  | cons x rest ih => by_cases hp : p x <;> simp [hp, ih, List.filter_cons]

/-- Flattening guarded segments is flattening over the filtered list. -/
theorem flatMap_if_segment {α β : Type} (p : α → Prop) [DecidablePred p]
    (g : α → List β) (l : List α) :
    l.flatMap (fun x => if p x then g x else [])
      = (l.filter (fun x => decide (p x))).flatMap g := by
  induction l with
  | nil => rfl
  | cons x rest ih => by_cases hp : p x <;> simp [hp, ih, List.filter_cons]

/-- The innermost builder loop appends one row per theory subject. -/
theorem crossSubjects_eq (subjects : List Subject) (secName roomName : String)
    (acc : List RoomAssignmentRow) :
    crossSubjects acc secName roomName subjects
      = acc ++ (subjects.filter (fun s => decide (s.credit > 0))).map
          (fun s => ⟨s.name, secName, roomName⟩) := by
  unfold crossSubjects
  rw [foldl_extend _ (fun s => if s.credit > 0 then [(⟨s.name, secName, roomName⟩ : RoomAssignmentRow)] else [])
      (fun acc x => by by_cases hx : x.credit > 0 <;> simp [hx]),
    flatMap_if_singleton]

/-- The middle builder loop appends the subject rows of each non-empty
claimed section. -/
theorem crossSections_eq (tra : TheoryRoomAssignment) (subjects : List Subject)
    (acc : List RoomAssignmentRow) :
    crossSections acc tra subjects
      = acc ++ (tra.sections.filter (fun sec => decide (sec ≠ ""))).flatMap
          (fun secName => (subjects.filter (fun s => decide (s.credit > 0))).map
            (fun s => ⟨s.name, secName, tra.roomName⟩)) := by
  unfold crossSections
  rw [foldl_extend _ (fun secName => if secName ≠ "" then
        (subjects.filter (fun s => decide (s.credit > 0))).map
          (fun s => (⟨s.name, secName, tra.roomName⟩ : RoomAssignmentRow)) else [])
      (fun acc x => by
        by_cases hx : x ≠ "" <;> simp [hx, crossSubjects_eq]),
    flatMap_if_segment]

/-- Checking a string against `""` with `!=` or with `decide` agree. -/
theorem bne_empty_eq_decide_ne :
    (fun sec : String => sec != "") = (fun sec : String => decide (sec ≠ "")) := by
  funext sec
  by_cases h : sec = "" <;> simp [h]

/-- The source builder in flatMap normal form. -/
theorem finalTheoryRoomAssignments_eq (tras : List TheoryRoomAssignment)
    (subjects : List Subject) :
    finalTheoryRoomAssignments tras subjects
      = (tras.filter (fun tra => decide (tra.roomName ≠ ""))).flatMap
          (fun tra => (tra.sections.filter (fun sec => decide (sec ≠ ""))).flatMap
            (fun secName => (subjects.filter (fun s => decide (s.credit > 0))).map
              (fun s => ⟨s.name, secName, tra.roomName⟩))) := by
  unfold finalTheoryRoomAssignments
  rw [foldl_extend _ (fun tra => if tra.roomName ≠ "" then
        (tra.sections.filter (fun sec => decide (sec ≠ ""))).flatMap
          (fun secName => (subjects.filter (fun s => decide (s.credit > 0))).map
            (fun s => (⟨s.name, secName, tra.roomName⟩ : RoomAssignmentRow))) else [])
      (fun acc x => by by_cases hx : x.roomName ≠ "" <;> simp [hx, crossSections_eq]),
    flatMap_if_segment]
  simp

/-- The spec's cross product in the same flatMap normal form. -/
theorem theoryRoomAssignmentsSpec_eq (tras : List TheoryRoomAssignment)
    (subjects : List Subject) :
    theoryRoomAssignmentsSpec tras subjects
      = (tras.filter (fun tra => decide (tra.roomName ≠ ""))).flatMap
          (fun tra => (tra.sections.filter (fun sec => decide (sec ≠ ""))).flatMap
            (fun secName => (subjects.filter (fun s => decide (s.credit > 0))).map
              (fun s => ⟨s.name, secName, tra.roomName⟩))) := by
  unfold theoryRoomAssignmentsSpec theoryRoomClaims
  rw [List.flatMap_assoc]
  have hpt : ∀ tra : TheoryRoomAssignment,
      ((if tra.roomName ≠ "" then
          (tra.sections.filter (fun sec => sec != "")).map (fun sec => (tra.roomName, sec))
        else []).flatMap (fun rc =>
          (subjects.filter (fun s => decide (s.credit > 0))).map
            (fun s => (⟨s.name, rc.2, rc.1⟩ : RoomAssignmentRow))))
        = if tra.roomName ≠ "" then
            (tra.sections.filter (fun sec => decide (sec ≠ ""))).flatMap
              (fun secName => (subjects.filter (fun s => decide (s.credit > 0))).map
                (fun s => ⟨s.name, secName, tra.roomName⟩))
          else [] := by
    intro tra
    by_cases h : tra.roomName ≠ "" <;>
      simp [h, List.flatMap_map, bne_empty_eq_decide_ne]
  simp only [hpt]
  rw [flatMap_if_segment]

/-- C5: `payload.theoryRoomAssignments` is exactly the cross product of
each named `(room, section)` theory-room claim with every subject having
`credit > 0`, one row per combination; in the one-theory-subject,
one-section, one-room scenario it is the single row
`{Math, A, R1}`. -/
theorem C5_theory_room_cross_product :
    (∀ (tras : List TheoryRoomAssignment) (subjects : List Subject),
      finalTheoryRoomAssignments tras subjects = theoryRoomAssignmentsSpec tras subjects) ∧
    finalTheoryRoomAssignments [⟨"R1", ["A"]⟩]
      [⟨"Math", "MTH", 3, 0⟩, ⟨"PhysLab", "PHL", 0, 1⟩,
       ⟨"ChemLab", "CHL", 0, 1⟩, ⟨"BioLab", "BIL", 0, 1⟩]
      = [⟨"Math", "A", "R1"⟩] := by
  refine ⟨fun tras subjects => ?_, by decide⟩
  rw [finalTheoryRoomAssignments_eq, theoryRoomAssignmentsSpec_eq]

/-- A submit-time state containing BOTH a duplicate subject name (`"S1"`
twice) and a duplicate room name (`"R1"` twice). -/
def c6Config : Config :=
  { sectionsCount := 1
    theoryRoomAssignments := [⟨"R1", ["A"]⟩, ⟨"R1", ["A"]⟩]
    labRoomAssignments := []
    subjects := [⟨"S1", "C1", 1, 0⟩, ⟨"S1", "C2", 1, 0⟩, ⟨"S3", "C3", 1, 0⟩, ⟨"S4", "C4", 1, 0⟩]
    faculty := []
    periodsPerDay := 8
    breakPeriod := 4 }

/-- C6, counterexample: with both violations present, the failure reported
is the duplicate-subject one, not the duplicate-room one — subject name and
code uniqueness is checked BEFORE room-name uniqueness in `handleSubmit`. -/
theorem C6_subject_dup_reported_before_room_dup :
    handleSubmitValidate c6Config = some (SubmitError.duplicateSubjectName "S1") ∧
    c6Config.theoryRoomAssignments.map (·.roomName) = ["R1", "R1"] := by
  decide

/-- C6, amended: the validator is fail-fast in the source's order, in which
the subject name/code uniqueness scan runs before every room-uniqueness
check: whenever the checks preceding it pass and the subject scan reports a
duplicate, that duplicate is the validator's verdict, regardless of any
room-name duplicates present. -/
theorem C6_subject_uniqueness_checked_first (c : Config) (e : SubmitError)
    (h1 : ¬(c.sectionsCount < 1 ∨ 6 < c.sectionsCount))
    (h2 : ¬(c.subjects.length < 4 ∨ 6 < c.subjects.length))
    (h3 : theoryCoverageAlert (sectionNamesOf c.sectionsCount) c.subjects
      c.theoryRoomAssignments = false)
    (h4 : labCoverageAlert c.subjects (sectionNamesOf c.sectionsCount)
      c.labRoomAssignments = false)
    (h5 : checkTheoryRooms c.theoryRoomAssignments = none)
    (h6 : (c.theoryRoomAssignments.map (·.roomName)).any (fun r => jsTrim r == "") = false)
    (h7 : (c.labRoomAssignments.map (·.roomName)).any (fun r => jsTrim r == "") = false)
    (h8 : scanDups2 SubmitError.duplicateSubjectName SubmitError.duplicateSubjectCode
      (c.subjects.map (fun s => (s.name, s.code))) [] [] = some e) :
    handleSubmitValidate c = some e := by
  unfold handleSubmitValidate
  rw [if_neg h1, if_neg h2]
  simp only [h3, h4, h5, h6, h7, h8, Bool.false_eq_true, if_false]

/-- C6, witness: the amended ordering statement applied at `c6Config`. -/
theorem C6_subject_uniqueness_checked_first_witness :
    handleSubmitValidate c6Config = some (SubmitError.duplicateSubjectName "S1") :=
  C6_subject_uniqueness_checked_first c6Config (SubmitError.duplicateSubjectName "S1")
    (by decide) (by decide) (by decide) (by decide) (by decide) (by decide) (by decide)
    (by decide)

/-- A faculty member (e.g. from a restored draft) whose rows reference
THREE distinct subjects. -/
def c7F1 : FacultyMember :=
  ⟨"F1", "f1", [⟨"S1", "A", true, false⟩, ⟨"S2", "A", true, false⟩, ⟨"S3", "A", true, false⟩]⟩

/-- A fully consistent submit-time state except that `c7F1` teaches three
distinct subjects. -/
def c7Config : Config :=
  { sectionsCount := 1
    theoryRoomAssignments := [⟨"R1", ["A"]⟩]
    labRoomAssignments := []
    subjects := [⟨"S1", "C1", 1, 0⟩, ⟨"S2", "C2", 1, 0⟩, ⟨"S3", "C3", 1, 0⟩, ⟨"S4", "C4", 1, 0⟩]
    faculty := [c7F1, ⟨"F2", "f2", [⟨"S4", "A", true, false⟩]⟩]
    periodsPerDay := 8
    breakPeriod := 4 }

/-- C7: the submit-time validator does NOT enforce the at-most-2-subjects
invariant: `c7Config` passes every check of `handleSubmit` (so the payload
is built and the request is sent) although its first faculty member's rows
reference 3 distinct subjects. -/
theorem C7_validator_admits_three_subject_faculty :
    handleSubmitValidate c7Config = none ∧
    c7Config.faculty = [c7F1, ⟨"F2", "f2", [⟨"S4", "A", true, false⟩]⟩] ∧
    (uniqueSubjects c7F1).length = 3 := by
  decide

/-- A registry whose only claim is for the subject named `"-X"` in section
`A`; its slot key string collides with the key rendered from the unset
subject `""` and section `"X-A"`. -/
def c8Faculty : List FacultyMember :=
  [⟨"F", "F", [⟨"-X", "A", true, false⟩]⟩]

/-- C8, counterexample: the claimed "iff" fails.  The key string rendered
from the unset subject `""` with section `"X-A"` IS in the registry map
(it collides with the claim for subject `"-X"`, section `"A"`) and its
stored owner `(0,0)` differs from the excluded row `(1,0)`, yet
`isSlotTakenByOther` returns `false` because of the unset-subject guard. -/
theorem C8_taken_by_other_guard_not_subsumed :
    isSlotTakenByOther c8Faculty "" "X-A" "theory" 1 0 = false ∧
    jsMapGet (assignedSlots c8Faculty) (slotKey "" "X-A" "theory") = some ⟨0, 0⟩ ∧
    ((0 : Nat) ≠ 1 ∨ (0 : Nat) ≠ 0) := by
  refine ⟨by decide, by decide, Or.inl (by decide)⟩

/-- C8, amended: `isSlotTakenByOther` returns true iff the subject AND the
section are both set, the registry map contains the rendered key, and the
stored owner differs from the excluded row in either index; likewise
`isLabSlotTakenByOther` with the excluded room index.  (The unset guard is
an independent conjunct: it is not implied by key membership, since key
strings built from an unset subject can collide with claimed keys.) -/
theorem C8_taken_by_other_characterization :
    (∀ (faculty : List FacultyMember) (subj sec mode : String) (fi ai : Nat),
      isSlotTakenByOther faculty subj sec mode fi ai = true ↔
        subj ≠ "" ∧ sec ≠ "" ∧
        ∃ o, jsMapGet (assignedSlots faculty) (slotKey subj sec mode) = some o ∧
          (o.fi ≠ fi ∨ o.ai ≠ ai)) ∧
    (∀ (lras : List LabRoomAssignment) (subj sec : String) (ri : Nat),
      isLabSlotTakenByOther lras subj sec ri = true ↔
        subj ≠ "" ∧ sec ≠ "" ∧
        ∃ r, jsMapGet (assignedLabSlotsMap lras) (subj ++ "-" ++ sec) = some r ∧ r ≠ ri) := by
  constructor
  · intro faculty subj sec mode fi ai
    unfold isSlotTakenByOther
    by_cases hg : subj = "" ∨ sec = ""
    · simp only [if_pos hg]
      constructor
      · intro h; exact absurd h (by simp)
      · rintro ⟨hs, hsec, -⟩
        exact absurd hg (by simp [hs, hsec])
    · rw [if_neg hg]
      push_neg at hg
      rcases hget : jsMapGet (assignedSlots faculty) (slotKey subj sec mode) with - | owner
      · simp [hg]
      · simp only [hget]
        constructor
        · intro h
          refine ⟨hg.1, hg.2, owner, rfl, ?_⟩
          rcases Bool.or_eq_true_iff.mp h with h1 | h1
          · exact Or.inl (by simpa using h1)
          · exact Or.inr (by simpa using h1)
        · rintro ⟨-, -, o, ho, hne⟩
          cases ho
          rcases hne with h1 | h1
          · exact Bool.or_eq_true_iff.mpr (Or.inl (by simpa using h1))
          · exact Bool.or_eq_true_iff.mpr (Or.inr (by simpa using h1))
  · intro lras subj sec ri
    unfold isLabSlotTakenByOther
    by_cases hg : subj = "" ∨ sec = ""
    · simp only [if_pos hg]
      constructor
      · intro h; exact absurd h (by simp)
      · rintro ⟨hs, hsec, -⟩
        exact absurd hg (by simp [hs, hsec])
    · rw [if_neg hg]
      push_neg at hg
      rcases hget : jsMapGet (assignedLabSlotsMap lras) (subj ++ "-" ++ sec) with - | owner
      · simp [hg]
      · simp only [hget]
        constructor
        · intro h
          exact ⟨hg.1, hg.2, owner, rfl, by simpa using h⟩
        · rintro ⟨-, -, o, ho, hne⟩
          cases ho
          simpa using hne

/-- Looking up in a value-mapped association list maps the result. -/
theorem jsMapGet_map_values {α β : Type} (g : α → β) (m : List (String × α)) (k : String) :
    jsMapGet (m.map (fun p => (p.1, g p.2))) k = (jsMapGet m k).map g := by
  induction m with
  | nil => rfl
  | cons p rest ih =>
    unfold jsMapGet at ih ⊢
    by_cases h : p.1 == k
    · rw [List.map_cons,
        @List.find?_cons_of_pos _ (fun q => q.1 == k) (p.1, g p.2) _ (by simpa using h),
        @List.find?_cons_of_pos _ (fun q => q.1 == k) p rest h]
      rfl
    · rw [List.map_cons,
        @List.find?_cons_of_neg _ (fun q => q.1 == k) (p.1, g p.2) _ (by simpa using h),
        @List.find?_cons_of_neg _ (fun q => q.1 == k) p rest h]
      exact ih

/-- Dropping `none`s commutes with mapping over the present values. -/
theorem filterMap_id_map_option {α β : Type} (g : α → β) (l : List (Option α)) :
    (l.map (Option.map g)).filterMap id = (l.filterMap id).map g := by
  induction l with
  | nil => rfl
  | cons o rest ih => cases o <;> simp [ih]

/-- The same commutation, with the renaming fused into the `filterMap`. -/
theorem filterMap_option_map {α β : Type} (g : α → β) (l : List (Option α)) :
    l.filterMap (Option.map g) = (l.filterMap id).map g := by
  induction l with
  | nil => rfl
  | cons o rest ih => cases o <;> simp [ih]

/-- Renaming cell subjects maps the sequence of counted cells. -/
theorem allCountedCells_mapRespSubjects (f : String → String) (resp : ScheduleResponse) :
    allCountedCells (mapRespSubjects f resp)
      = (allCountedCells resp).map (mapCellSubject f) := by
  unfold allCountedCells mapRespSubjects
  rw [List.map_flatMap]
  congr 1
  funext name
  rw [jsMapGet_map_values
    (fun ss : SectionSchedule =>
      (⟨ss.days.map (fun d => ⟨d.day, d.periods.map (Option.map (mapCellSubject f))⟩)⟩ :
        SectionSchedule))
    resp.schedules name]
  rcases jsMapGet resp.schedules name with - | ss
  · rfl
  · simp [List.flatMap_map, List.map_flatMap, filterMap_id_map_option,
      filterMap_option_map]

/-- C9, amended: no per-subject coverage summary exists in the interpreter;
every summary statistic TimetableView computes (the dashboard) is invariant
under arbitrarily renaming the subjects of the grid cells, so no
per-subject scheduled-vs-requested count can be derived from its
computations. -/
theorem C9_dashboard_subject_invariant :
    ∀ (f : String → String) (resp : ScheduleResponse),
      dashboard (mapRespSubjects f resp) = dashboard resp := by
  intro f resp
  unfold dashboard totalTheoryClasses totalLabClasses usedRoomsBy
  simp only [allCountedCells_mapRespSubjects, List.countP_map, List.foldl_map]
  rfl

/-- A theory cell of subject `"X"`. -/
def theoryCellX : Cell := ⟨"X", "R1", "gf", false, false, ""⟩

/-- A theory cell of subject `"Y"`. -/
def theoryCellY : Cell := ⟨"Y", "R1", "gf", false, false, ""⟩

/-- The subject list shared by the two C9 grids. -/
def c9Subjects : List Subject := [⟨"X", "CX", 2, 0⟩, ⟨"Y", "CY", 2, 0⟩]

/-- A grid whose two theory cells both belong to subject `"X"`. -/
def c9RespXX : ScheduleResponse :=
  ⟨["A"], c9Subjects, ["GF"], 4, [("A", ⟨[⟨"Mon", [some theoryCellX, some theoryCellX]⟩]⟩)]⟩

/-- A grid with one theory cell for `"X"` and one for `"Y"`. -/
def c9RespXY : ScheduleResponse :=
  ⟨["A"], c9Subjects, ["GF"], 4, [("A", ⟨[⟨"Mon", [some theoryCellX, some theoryCellY]⟩]⟩)]⟩

/-- C9, counterexample: the interpreter computes no per-subject coverage
summary — two grids whose per-subject scheduled-theory distribution differs
(2/0 versus 1/1 for subjects X/Y) produce identical summary statistics, so
the computed summary carries no per-subject count to compare with a
subject's requested credit/lab counts. -/
theorem C9_dashboard_not_per_subject :
    dashboard c9RespXX = dashboard c9RespXY ∧
    perSubjectScheduledTheory c9RespXX "X" = 2 ∧
    perSubjectScheduledTheory c9RespXY "X" = 1 := by
  decide

/-- C10: when the generation call resolves with an empty body (null or
undefined), the client removes the cached timetable (discarding any prior
successful result) and does not navigate; only a truthy body is stored and
navigated to. -/
theorem C10_empty_success_discards_cache :
    ∀ st : ClientState,
      persistAndNavigate JsData.jnull st = { st with timetableData := none } ∧
      persistAndNavigate JsData.jundefined st = { st with timetableData := none } ∧
      (persistAndNavigate JsData.jnull st).route = st.route ∧
      (persistAndNavigate JsData.jundefined st).route = st.route ∧
      ∀ g, persistAndNavigate (JsData.jdata g) st
        = { st with timetableData := some (JsData.jdata g), route := "/timetable" } := by
  intro st
  exact ⟨rfl, rfl, rfl, rfl, fun g => rfl⟩
